import Mathlib

/-!
Shallow embedding of the AWS Documentation MCP server
(`awslabs/aws_documentation_mcp_server`): the query-correlation cache
(`server_utils.py`), the search / read / recommend tool pipelines
(`server_aws.py`) and the data model (`models.py`), together with proofs
of the specified properties.

Remote I/O is modelled by passing the outcome of the single outbound HTTP
call as an explicit argument; the process-wide cache (`SEARCH_RESULT_CACHE`,
a `deque(maxlen=3)` whose front is the most-recently-inserted batch) is
modelled as an explicit `List` argument with the head at the front.
-/

namespace AwsDocs

/-! ## Percent-encoding (`urllib.parse.quote` with its default `safe` set `/`) -/

/-- Uppercase hexadecimal digit for `n < 16`, as used by `urllib.parse.quote`. -/
def hexDigitChar (n : Nat) : Char :=
  if n < 10 then Char.ofNat (48 + n) else Char.ofNat (55 + n)

/-- The UTF-8 bytes of a character, as `urllib.parse.quote` encodes its input
before percent-escaping. -/
def utf8ByteList (c : Char) : List Nat :=
  let n := c.toNat
  if n < 128 then [n]
  else if n < 2048 then [192 + n / 64, 128 + n % 64]
  else if n < 65536 then [224 + n / 4096, 128 + n / 64 % 64, 128 + n % 64]
  else [240 + n / 262144, 128 + n / 4096 % 64, 128 + n / 64 % 64, 128 + n % 64]

/-- Bytes `urllib.parse.quote` leaves unescaped: ASCII letters, digits,
`_`, `.`, `-`, `~`, and the default safe character `/`. -/
def isQuoteSafeByte (b : Nat) : Bool :=
  (65 ≤ b && b ≤ 90) || (97 ≤ b && b ≤ 122) || (48 ≤ b && b ≤ 57) ||
  b == 95 || b == 46 || b == 45 || b == 126 || b == 47

/-- Percent-escape a single byte unless it is in the safe set. -/
def quoteByte (b : Nat) : String :=
  if isQuoteSafeByte b then String.mk [Char.ofNat b]
  else String.mk ['%', hexDigitChar (b / 16), hexDigitChar (b % 16)]

/-- `urllib.parse.quote(s)`: UTF-8 encode, then percent-escape every unsafe byte. -/
def quote (s : String) : String :=
  String.join ((s.data.flatMap utf8ByteList).map quoteByte)

/-! ## Data model (`models.py`) -/

/-- `SearchResult` pydantic model: a single search hit.  `rank_order` is the
1-based relevance rank; `query_id` is the opaque identifier of the search
call that produced the hit; `context` is the optional snippet. -/
structure SearchResult where
  rank_order : Nat
  url : String
  title : String
  query_id : String
  context : Option String
deriving DecidableEq, Repr

/-- `RecommendationResult` pydantic model. -/
structure RecommendationResult where
  url : String
  title : String
  context : Option String
deriving DecidableEq, Repr

/-- The query-correlation cache `SEARCH_RESULT_CACHE = deque(maxlen=3)`:
a list of batches, head = most-recently-inserted. -/
abbrev Cache := List (List SearchResult)

/-! ## Cache operations (`server_utils.py`) -/

/-- `add_search_result_cache_item`: `SEARCH_RESULT_CACHE.appendleft(batch)` on a
`deque(maxlen=3)` places the batch at the front and, when the deque already
holds 3 batches, silently discards the one at the back. -/
def add_search_result_cache_item (cache : Cache) (search_results : List SearchResult) : Cache :=
  (search_results :: cache).take 3

/-- Inner loop of `get_query_id_from_cache`: scan one batch in original order
and return the percent-encoded `query_id` of the first result whose `url`
matches exactly. -/
def lookup_batch (url : String) : List SearchResult → Option String
  | [] => none
  | r :: rest => if r.url = url then some (quote r.query_id) else lookup_batch url rest

/-- `get_query_id_from_cache`: scan the stored batches front (most recent) to
back; inside each batch scan in original order; return the first match's
percent-encoded `query_id`, or `none`. -/
def get_query_id_from_cache (cache : Cache) (url : String) : Option String :=
  match cache with
  | [] => none
  | batch :: rest =>
    match lookup_batch url batch with
    | some q => some q
    | none => get_query_id_from_cache rest url

/-! ## Search response shape (`server_aws.py`, `search_documentation`) -/

/-- The optional `metadata` object of a `textExcerptSuggestion`; `none` fields
model absent JSON keys (the code tests key presence with `in`). -/
structure SuggestionMetadata where
  seo_abstract : Option String
  abstract : Option String
deriving DecidableEq, Repr

/-- A `textExcerptSuggestion` object; `none` fields model absent JSON keys.
`metadata = none` models a suggestion without a `metadata` object (the code
substitutes an empty dict via `get('metadata', \x7b\x7d)`). -/
structure TextExcerptSuggestion where
  link : Option String
  title : Option String
  summary : Option String
  suggestionBody : Option String
  metadata : Option SuggestionMetadata
deriving DecidableEq, Repr

/-- One element of the response's `suggestions` array; the code only processes
it when the key `textExcerptSuggestion` is present. -/
structure Suggestion where
  textExcerptSuggestion : Option TextExcerptSuggestion
deriving DecidableEq, Repr

/-- The decoded JSON body of a search response: `data.get('queryId')` and the
optional `suggestions` array (the code tests `'suggestions' in data`). -/
structure SearchData where
  queryId : Option String
  suggestions : Option (List Suggestion)
deriving DecidableEq, Repr

/-- Outcome of the single outbound POST of `search_documentation`:
a transport error (`httpx.HTTPError`, carrying `str(e)`), or a response with a
status code and a body that either decodes as JSON (`Except.ok`) or raises
`json.JSONDecodeError` carrying `str(e)` (`Except.error`). -/
inductive SearchHttp where
  | transportError (e : String)
  | response (status : Nat) (body : Except String SearchData)
deriving Repr

/-- The snippet selection for one `textExcerptSuggestion`: SEO abstract if the
key is present, else abstract, else summary, else suggestion body, else none —
the inline `if/elif` chain of `search_documentation`. -/
def snippet (ts : TextExcerptSuggestion) : Option String :=
  let md := ts.metadata.getD ⟨none, none⟩
  match md.seo_abstract with
  | some v => some v
  | none =>
    match md.abstract with
    | some v => some v
    | none =>
      match ts.summary with
      | some v => some v
      | none => ts.suggestionBody

/-- The `for i, suggestion in enumerate(data['suggestions'][:limit])` loop body:
`i` is the 0-based position in the truncated suggestion list (also counting
skipped suggestions).  Constructing a `SearchResult` with `query_id = None`
raises `pydantic.ValidationError`, modelled as `Except.error`. -/
def build_results_from (query_id : Option String) :
    List Suggestion → Nat → Except String (List SearchResult)
  | [], _ => .ok []
  | s :: rest, i =>
    match s.textExcerptSuggestion with
    | none => build_results_from query_id rest (i + 1)
    | some ts =>
      match query_id with
      | none => .error "1 validation error for SearchResult: query_id: string required"
      | some qid =>
        match build_results_from query_id rest (i + 1) with
        | .error e => .error e
        | .ok tail =>
          .ok ({ rank_order := i + 1, url := ts.link.getD "", title := ts.title.getD "",
                 query_id := qid, context := snippet ts } :: tail)

/-- The whole result-assembly step of `search_documentation` on a decoded body:
when `suggestions` is absent the result list stays empty, else the loop above
runs over the first `limit` suggestions. -/
def search_results_of_data (data : SearchData) (limit : Nat) :
    Except String (List SearchResult) :=
  match data.suggestions with
  | none => .ok []
  | some sugg => build_results_from data.queryId (sugg.take limit) 0

/-- The single-element placeholder `search_documentation` returns on soft
failures. -/
def errorSearchResult (msg : String) : SearchResult :=
  { rank_order := 1, url := "", title := msg, query_id := "", context := none }

/-- `search_documentation`, as a function of the outcome of its one HTTP call
and the prior cache state.  `Except.error` models an exception propagating to
the caller; `Except.ok (results, cache)` models a normal return together with
the cache state after the call. -/
def search_documentation (resp : SearchHttp) (limit : Nat) (cache : Cache) :
    Except String (List SearchResult × Cache) :=
  match resp with
  | .transportError e =>
    .ok ([errorSearchResult ("Error searching AWS docs: " ++ e)], cache)
  | .response status body =>
    if 400 ≤ status then
      .ok ([errorSearchResult ("Error searching AWS docs - status code " ++ toString status)],
           cache)
    else
      match body with
      | .error e => .ok ([errorSearchResult ("Error parsing search results: " ++ e)], cache)
      | .ok data =>
        match search_results_of_data data limit with
        | .error e => .error e
        | .ok results => .ok (results, add_search_result_cache_item cache results)

/-! ## Recommend tool (`server_aws.py`, `recommend`) -/

/-- Modelled from the spec: the decoded JSON body of the recommendation API is
"four named category groups each holding link/title/context-bearing entries"
(highly-rated, new, similar, next-in-journey); the parsing code
(`parse_recommendation_results` in the repository's `util.py`) is not among the
sources here, so the body is modelled as the four already-decoded groups. -/
structure RecData where
  highlyRated : List RecommendationResult
  newContent : List RecommendationResult
  similar : List RecommendationResult
  journey : List RecommendationResult
deriving DecidableEq, Repr

/-- Modelled from the spec: `parse_recommendation_results` (in the repository's
`util.py`, absent from the sources here) maps "the response's categorized
recommendation groups (four categories: highly-rated, new, similar,
next-in-journey) into a flat list of RecommendationResult, preserving the
response's internal ordering". -/
def parse_recommendation_results (data : RecData) : List RecommendationResult :=
  data.highlyRated ++ data.newContent ++ data.similar ++ data.journey

/-- Outcome of the single outbound GET of `recommend`, analogous to
`SearchHttp`. -/
inductive RecHttp where
  | transportError (e : String)
  | response (status : Nat) (body : Except String RecData)
deriving Repr

/-- The single-element placeholder `recommend` returns on soft failures. -/
def errorRecommendationResult (msg : String) : RecommendationResult :=
  { url := "", title := msg, context := none }

/-- `recommend`, as a function of the outcome of its one HTTP call.  It never
raises: every path returns a list. -/
def recommend (resp : RecHttp) : List RecommendationResult :=
  match resp with
  | .transportError e =>
    [errorRecommendationResult ("Error getting recommendations: " ++ e)]
  | .response status body =>
    if 400 ≤ status then
      [errorRecommendationResult ("Error getting recommendations - status code " ++
        toString status)]
    else
      match body with
      | .error e => [errorRecommendationResult ("Error parsing recommendations: " ++ e)]
      | .ok data => parse_recommendation_results data

/-! ## Read tool (`server_utils.py` `read_documentation_impl`,
`server_aws.py` `read_documentation`) -/

/-- Modelled from the spec: `format_documentation_result` (in the repository's
`util.py`, absent from the sources here; only its call site in
`read_documentation_impl` is) returns "a formatted string comprising a fixed
header (source URL) and the substring of the content from `start_index` to
`start_index + max_length`; if the content is longer than that window, append
a truncation notice stating the next `start_index` to use to continue reading.
If `start_index` is beyond the content length, return an explicit
'no more content' indicator rather than an empty slice silently."
Indices count characters, as Python string slicing does. -/
def format_documentation_result (url content : String) (start_index max_length : Nat) :
    String :=
  if content.length ≤ start_index then
    "AWS Documentation from " ++ url ++ ":\n\n<e>No more content available.</e>"
  else
    let truncated : String := String.mk ((content.data.drop start_index).take max_length)
    let body := "AWS Documentation from " ++ url ++ ":\n\n" ++ truncated
    if start_index + max_length < content.length then
      body ++ "\n\n<e>Content truncated. Call the read_documentation tool with start_index=" ++
        toString (start_index + max_length) ++ " to get more content.</e>"
    else
      body

/-- Outcome of the single outbound GET of `read_documentation_impl`:
a transport error, or a response with a status code, a body text, and the
outcome of the HTML sniff `is_html_content(page_raw, content_type)` (that
helper lives in the repository's `util.py`, absent from the sources here, so
its boolean verdict is part of the modelled outcome). -/
inductive FetchOutcome where
  | transportError (e : String)
  | response (status : Nat) (body : String) (body_is_html : Bool)
deriving Repr

/-- `read_documentation_impl`: on transport failure or status ≥ 400 return the
error message as the result string; otherwise extract readable text from HTML
bodies (the extractor `extract_content_from_html` lives in the repository's
`util.py`, absent from the sources here, so it is passed as a function) and
delegate to `format_documentation_result`. -/
def read_documentation_impl (url : String) (fetch : FetchOutcome)
    (extract_content_from_html : String → String) (max_length start_index : Nat) : String :=
  match fetch with
  | .transportError e => "Failed to fetch " ++ url ++ ": " ++ e
  | .response status body body_is_html =>
    if 400 ≤ status then
      "Failed to fetch " ++ url ++ " - status code " ++ toString status
    else
      let content := if body_is_html then extract_content_from_html body else body
      format_documentation_result url content start_index max_length

/-- The URL validation of `read_documentation`:
`re.match(r'^https?://docs\.aws\.amazon\.com/', url)`, i.e. the url starts
with `http://docs.aws.amazon.com/` or `https://docs.aws.amazon.com/` (the
fixed host must be followed by the `/` that begins the path). -/
def matches_aws_docs_url (url : String) : Bool :=
  "http://docs.aws.amazon.com/".data.isPrefixOf url.data ||
  "https://docs.aws.amazon.com/".data.isPrefixOf url.data

/-- The `.html` suffix validation of `read_documentation`. -/
def ends_with_html (url : String) : Bool :=
  ".html".data.isSuffixOf url.data

/-- `read_documentation`: validate the url shape before any network activity
(`Except.error` models the raised `ValueError`), then delegate to
`read_documentation_impl` on the fetch outcome. -/
def read_documentation (url : String) (fetch : FetchOutcome)
    (extract_content_from_html : String → String) (max_length start_index : Nat) :
    Except String String :=
  if ¬ matches_aws_docs_url url then
    .error "URL must be from the docs.aws.amazon.com domain"
  else if ¬ ends_with_html url then
    .error "URL must end with .html"
  else
    .ok (read_documentation_impl url fetch extract_content_from_html max_length start_index)

/-! ## Helper lemmas -/

/-- The inner batch scan is `List.find?` followed by percent-encoding. -/
lemma lookup_batch_eq_find (url : String) (b : List SearchResult) :
    lookup_batch url b
      = (b.find? (fun r => decide (r.url = url))).map (fun r => quote r.query_id) := by
  induction b with
  | nil => rfl
  | cons r rest ih =>
    by_cases h : r.url = url <;>
      simp [lookup_batch, List.find?_cons, h, ih]

/-- The nested scan of `get_query_id_from_cache` equals a single `find?` over
the batches flattened in recency-major order. -/
lemma lookup_eq_flatten_find (cache : Cache) (url : String) :
    get_query_id_from_cache cache url
      = (cache.flatten.find? (fun r => decide (r.url = url))).map
          (fun r => quote r.query_id) := by
  induction cache with
  | nil => rfl
  | cons b rest ih =>
    cases hfind : b.find? (fun r => decide (r.url = url)) with
    | some r =>
      have hb : lookup_batch url b = some (quote r.query_id) := by
        rw [lookup_batch_eq_find, hfind]; rfl
      simp [get_query_id_from_cache, hb, List.flatten_cons, List.find?_append, hfind,
        Option.or]
    | none =>
      have hb : lookup_batch url b = none := by
        rw [lookup_batch_eq_find, hfind]; rfl
      simp [get_query_id_from_cache, hb, List.flatten_cons, List.find?_append, hfind,
        Option.or, ih]

/-- If no stored result matches the url, the lookup returns `none`. -/
lemma lookup_eq_none_of_no_match (cache : Cache) (url : String)
    (h : ∀ b ∈ cache, ∀ r ∈ b, r.url ≠ url) :
    get_query_id_from_cache cache url = none := by
  rw [lookup_eq_flatten_find]
  have hnone : cache.flatten.find? (fun r => decide (r.url = url)) = none := by
    refine List.find?_eq_none.mpr (fun r hr => ?_)
    obtain ⟨b, hb, hrb⟩ := List.mem_flatten.mp hr
    simpa using h b hb r hrb
  simp [hnone]

/-- Truncating the tail early does not change a 3-truncated append. -/
lemma take_three_append {α : Type} (l t : List α) :
    (l ++ t.take 3).take 3 = (l ++ t).take 3 := by
  rw [List.take_append_eq_append_take, List.take_append_eq_append_take, List.take_take]
  congr 1
  rw [Nat.min_eq_left (Nat.sub_le 3 l.length)]

/-- Folding inserts over a cache of at most 3 batches keeps the 3 most
recently inserted batches, most recent first. -/
lemma foldl_add_eq (bs : List (List SearchResult)) (c : Cache) (hc : c.length ≤ 3) :
    List.foldl add_search_result_cache_item c bs = (bs.reverse ++ c).take 3 := by
  induction bs generalizing c with
  | nil => simp [List.take_of_length_le hc]
  | cons b rest ih =>
    have hlen : ((b :: c).take 3).length ≤ 3 := by
      simp [List.length_take]
    calc List.foldl add_search_result_cache_item c (b :: rest)
        = List.foldl add_search_result_cache_item ((b :: c).take 3) rest := rfl
      _ = (rest.reverse ++ (b :: c).take 3).take 3 := ih _ hlen
      _ = (rest.reverse ++ (b :: c)).take 3 := take_three_append _ _
      _ = ((b :: rest).reverse ++ c).take 3 := by
            simp [List.reverse_cons, List.append_assoc]

/-! ## Claim theorems -/

/-- C1: `get_query_id_from_cache` scans stored batches from most-recently
inserted to least (head first), within a batch in original order, and returns
the percent-encoding of the `query_id` of the first result whose `url` equals
the queried url exactly (this equals a single `find?` over the recency-major
flattening); if the same url occurs in an earlier batch `b1` and a later batch
`b2`, lookup after both inserts returns `b2`'s query id; if nothing matches,
lookup returns `none`. -/
theorem cache_lookup_recency_order (cache : Cache) (url : String) :
    get_query_id_from_cache cache url
      = (cache.flatten.find? (fun r => decide (r.url = url))).map
          (fun r => quote r.query_id)
    ∧ (∀ b1 b2 : List SearchResult, (∃ r ∈ b2, r.url = url) →
        get_query_id_from_cache
            (add_search_result_cache_item (add_search_result_cache_item cache b1) b2) url
          = (b2.find? (fun r => decide (r.url = url))).map (fun r => quote r.query_id))
    ∧ ((∀ b ∈ cache, ∀ r ∈ b, r.url ≠ url) → get_query_id_from_cache cache url = none) := by
  refine ⟨lookup_eq_flatten_find cache url, ?_, lookup_eq_none_of_no_match cache url⟩
  rintro b1 b2 ⟨r, hr, hurl⟩
  obtain ⟨r2, hr2⟩ : ∃ r2, b2.find? (fun r => decide (r.url = url)) = some r2 := by
    cases hf : b2.find? (fun r => decide (r.url = url)) with
    | some r2 => exact ⟨r2, rfl⟩
    | none => exact absurd (by simpa using List.find?_eq_none.mp hf r hr) (by simp [hurl])
  have hb2 : lookup_batch url b2 = some (quote r2.query_id) := by
    rw [lookup_batch_eq_find, hr2]; rfl
  have hcons : add_search_result_cache_item
      (add_search_result_cache_item cache b1) b2
        = b2 :: ((b1 :: cache).take 3).take 2 := by
    simp [add_search_result_cache_item]
  rw [hcons]
  simp [get_query_id_from_cache, hb2, hr2]

/-- Witness for C1: with `[u ↦ q1]` inserted before `[u ↦ q2]`, lookup of `u`
returns the later batch's (percent-encoded) query id. -/
theorem cache_lookup_recency_order_witness :
    get_query_id_from_cache
        (add_search_result_cache_item
          (add_search_result_cache_item []
            [{ rank_order := 1, url := "u", title := "t", query_id := "q1", context := none }])
          [{ rank_order := 1, url := "u", title := "t", query_id := "q2", context := none }]) "u"
      = (([{ rank_order := 1, url := "u", title := "t", query_id := "q2",
             context := none }] : List SearchResult).find?
            (fun r => decide (r.url = "u"))).map (fun r => quote r.query_id) :=
  (cache_lookup_recency_order [] "u").2.1 _ _
    ⟨{ rank_order := 1, url := "u", title := "t", query_id := "q2", context := none },
      by simp, rfl⟩

/-- C2: the cache never holds more than 3 batches; every insert places the new
batch at the most-recent (front) end; after more than 3 inserts starting from
the empty cache exactly the 3 most recent batches remain, most recent first;
and a url matched only in an evicted batch is no longer found by lookup. -/
theorem cache_capacity_invariant (c : Cache) (b : List SearchResult)
    (bs : List (List SearchResult)) (url : String) :
    (add_search_result_cache_item c b).length ≤ 3
    ∧ (∃ rest, add_search_result_cache_item c b = b :: rest)
    ∧ (3 < bs.length →
        List.foldl add_search_result_cache_item [] bs = bs.reverse.take 3)
    ∧ (3 < bs.length →
        (∀ batch ∈ bs.reverse.take 3, ∀ r ∈ batch, r.url ≠ url) →
        get_query_id_from_cache (List.foldl add_search_result_cache_item [] bs) url
          = none) := by
  have hfold : List.foldl add_search_result_cache_item [] bs = bs.reverse.take 3 := by
    simpa using foldl_add_eq bs [] (by simp)
  refine ⟨?_, ⟨c.take 2, ?_⟩, fun _ => hfold, fun _ h => ?_⟩
  · simp [add_search_result_cache_item, List.length_take]
  · simp [add_search_result_cache_item]
  · rw [hfold]
    exact lookup_eq_none_of_no_match _ url h

/-- Witness for C2: after inserting four batches for urls `a`, `b`, `c`, `d`,
the batch for `a` is evicted and `lookup "a"` returns `none`. -/
theorem cache_capacity_invariant_witness :
    get_query_id_from_cache
      (List.foldl add_search_result_cache_item []
        [[{ rank_order := 1, url := "a", title := "t", query_id := "q1", context := none }],
         [{ rank_order := 1, url := "b", title := "t", query_id := "q2", context := none }],
         [{ rank_order := 1, url := "c", title := "t", query_id := "q3", context := none }],
         [{ rank_order := 1, url := "d", title := "t", query_id := "q4", context := none }]]) "a"
      = none :=
  (cache_capacity_invariant [] []
      [[{ rank_order := 1, url := "a", title := "t", query_id := "q1", context := none }],
       [{ rank_order := 1, url := "b", title := "t", query_id := "q2", context := none }],
       [{ rank_order := 1, url := "c", title := "t", query_id := "q3", context := none }],
       [{ rank_order := 1, url := "d", title := "t", query_id := "q4", context := none }]]
      "a").2.2.2 (by decide) (by decide)

/-- When every suggestion carries the text-excerpt shape, the loop starting at
index `i` succeeds and assigns ranks `i+1, i+2, ...` in order. -/
lemma build_all_some_ranks (qid : String) (l : List Suggestion) (i : Nat)
    (h : ∀ s ∈ l, s.textExcerptSuggestion.isSome) :
    ∃ res, build_results_from (some qid) l i = .ok res ∧
      res.map SearchResult.rank_order = List.range' (i + 1) l.length := by
  induction l generalizing i with
  | nil => exact ⟨[], rfl, rfl⟩
  | cons s rest ih =>
    obtain ⟨ts, hts⟩ := Option.isSome_iff_exists.mp (h s (List.mem_cons_self s rest))
    obtain ⟨res, hres, hmap⟩ := ih (i + 1) (fun x hx => h x (List.mem_cons_of_mem s hx))
    refine ⟨{ rank_order := i + 1, url := ts.link.getD "", title := ts.title.getD "",
              query_id := qid, context := snippet ts } :: res, ?_, ?_⟩
    · simp [build_results_from, hts, hres]
    · simp [hmap, List.range'_succ, List.length_cons]

/-- C3: for a successful response whose suggestion batch has `k` suggestions,
`k` within the caller's limit and each carrying the text-excerpt shape, the
returned `SearchResult` list carries ranks exactly `1..k` in response order
(whatever the snippet fields hold). -/
theorem search_rank_assignment (qid : String) (sugg : List Suggestion)
    (limit status : Nat) (cache : Cache)
    (hstatus : status < 400) (hlen : sugg.length ≤ limit)
    (hall : ∀ s ∈ sugg, s.textExcerptSuggestion.isSome) :
    ∃ res c2,
      search_documentation (.response status (.ok ⟨some qid, some sugg⟩)) limit cache
        = .ok (res, c2)
      ∧ res.map SearchResult.rank_order = List.range' 1 sugg.length := by
  obtain ⟨res, hres, hmap⟩ := build_all_some_ranks qid sugg 0 hall
  have h400 : ¬ 400 ≤ status := Nat.not_le.mpr hstatus
  refine ⟨res, add_search_result_cache_item cache res, ?_, hmap⟩
  simp [search_documentation, h400, search_results_of_data,
    List.take_of_length_le hlen, hres]

/-- Witness for C3: a concrete 2-suggestion response, one suggestion with all
snippet fields absent and one with a summary only, yields ranks `[1, 2]`. -/
theorem search_rank_assignment_witness :
    ∃ res c2,
      search_documentation
          (.response 200 (.ok ⟨some "q",
            some [⟨some ⟨none, none, none, none, none⟩⟩,
                  ⟨some ⟨some "L", some "T", some "S", none, none⟩⟩]⟩)) 10 []
        = .ok (res, c2)
      ∧ res.map SearchResult.rank_order = List.range' 1 2 :=
  search_rank_assignment "q"
    [⟨some ⟨none, none, none, none, none⟩⟩,
     ⟨some ⟨some "L", some "T", some "S", none, none⟩⟩]
    10 200 [] (by decide) (by decide) (by decide)

/-- C4: a text-excerpt suggestion becomes a `SearchResult` whose `context` is
chosen by the strict fallback chain: the `seo_abstract` metadata field when
present; else the `abstract` metadata field; else the suggestion's `summary`;
else its `suggestionBody`; else no snippet. -/
theorem snippet_fallback_order (ts : TextExcerptSuggestion) (qid : String)
    (status limit : Nat) (cache : Cache)
    (hstatus : status < 400) (hlimit : 1 ≤ limit) :
    (∃ c2,
      search_documentation (.response status (.ok ⟨some qid, some [⟨some ts⟩]⟩)) limit cache
        = .ok ([{ rank_order := 1, url := ts.link.getD "", title := ts.title.getD "",
                  query_id := qid, context := snippet ts }], c2))
    ∧ (∀ v, (ts.metadata.getD ⟨none, none⟩).seo_abstract = some v → snippet ts = some v)
    ∧ ((ts.metadata.getD ⟨none, none⟩).seo_abstract = none →
        ∀ v, (ts.metadata.getD ⟨none, none⟩).abstract = some v → snippet ts = some v)
    ∧ ((ts.metadata.getD ⟨none, none⟩).seo_abstract = none →
       (ts.metadata.getD ⟨none, none⟩).abstract = none →
        ∀ v, ts.summary = some v → snippet ts = some v)
    ∧ ((ts.metadata.getD ⟨none, none⟩).seo_abstract = none →
       (ts.metadata.getD ⟨none, none⟩).abstract = none →
       ts.summary = none → snippet ts = ts.suggestionBody) := by
  have h400 : ¬ 400 ≤ status := Nat.not_le.mpr hstatus
  have htake : ([⟨some ts⟩] : List Suggestion).take limit = [⟨some ts⟩] :=
    List.take_of_length_le (by simpa using hlimit)
  refine ⟨⟨add_search_result_cache_item cache
      [{ rank_order := 1, url := ts.link.getD "", title := ts.title.getD "",
         query_id := qid, context := snippet ts }], ?_⟩, ?_, ?_, ?_, ?_⟩
  · simp [search_documentation, h400, search_results_of_data, htake, build_results_from]
  · intro v hv
    simp [snippet, hv]
  · intro h0 v hv
    simp [snippet, h0, hv]
  · intro h0 h1 v hv
    simp [snippet, h0, h1, hv]
  · intro h0 h1 h2
    simp [snippet, h0, h1, h2]

/-- Witness for C4: with all four candidate fields populated the returned
result's context is the SEO-abstract value. -/
theorem snippet_fallback_order_witness :
    (∃ c2,
      search_documentation
          (.response 200 (.ok ⟨some "q",
            some [⟨some ⟨some "L", some "T", some "S", some "B",
                         some ⟨some "SEO", some "A"⟩⟩⟩]⟩)) 10 []
        = .ok ([{ rank_order := 1, url := "L", title := "T", query_id := "q",
                  context := snippet ⟨some "L", some "T", some "S", some "B",
                                      some ⟨some "SEO", some "A"⟩⟩ }], c2))
    ∧ snippet ⟨some "L", some "T", some "S", some "B", some ⟨some "SEO", some "A"⟩⟩
        = some "SEO" :=
  ⟨(snippet_fallback_order ⟨some "L", some "T", some "S", some "B",
      some ⟨some "SEO", some "A"⟩⟩ "q" 200 10 [] (by decide) (by decide)).1,
   (snippet_fallback_order ⟨some "L", some "T", some "S", some "B",
      some ⟨some "SEO", some "A"⟩⟩ "q" 200 10 [] (by decide) (by decide)).2.1 "SEO" rfl⟩

/-- C5: on a successful fetch of a non-HTML body, `read_documentation_impl`
returns `format_documentation_result` on the content, which comprises the
fixed header naming the source url followed by exactly the character slice
`content[s : s+m]`; when `s + m < L` the appended tail is a truncation notice
naming `s + m` as the next start index, when `s + m ≥ L` nothing is appended,
and when `s ≥ L` an explicit no-more-content indicator is returned instead of
an empty slice. -/
theorem read_documentation_pagination (url content : String) (s m status : Nat)
    (extract : String → String) (_hm : 0 < m) (hstatus : status < 400) :
    read_documentation_impl url (.response status content false) extract m s
        = format_documentation_result url content s m
    ∧ (content.length ≤ s →
        format_documentation_result url content s m
          = "AWS Documentation from " ++ url ++ ":\n\n<e>No more content available.</e>")
    ∧ (s < content.length →
        ∃ t tail,
          format_documentation_result url content s m
            = "AWS Documentation from " ++ url ++ ":\n\n" ++ t ++ tail
          ∧ t.data = (content.data.drop s).take m
          ∧ (s + m < content.length →
              tail = "\n\n<e>Content truncated. Call the read_documentation tool with start_index="
                ++ toString (s + m) ++ " to get more content.</e>")
          ∧ (content.length ≤ s + m → tail = "")) := by
  have h400 : ¬ 400 ≤ status := Nat.not_le.mpr hstatus
  refine ⟨by simp [read_documentation_impl, h400], fun h => by
    simp [format_documentation_result, h], fun h => ?_⟩
  have h' : ¬ content.length ≤ s := Nat.not_le.mpr h
  by_cases hwin : s + m < content.length
  · refine ⟨String.mk ((content.data.drop s).take m),
      "\n\n<e>Content truncated. Call the read_documentation tool with start_index="
        ++ toString (s + m) ++ " to get more content.</e>", ?_, rfl, fun _ => rfl, ?_⟩
    · simp [format_documentation_result, h', hwin, String.append_assoc]
    · intro hcontra
      exact absurd hwin (Nat.not_lt.mpr hcontra)
  · refine ⟨String.mk ((content.data.drop s).take m), "", ?_, rfl, ?_, fun _ => rfl⟩
    · simp [format_documentation_result, h', hwin]
    · intro hcontra
      exact absurd hcontra hwin

/-- Witness for C5: content `0123456789`, `start_index = 2`, `max_length = 3`
gives the slice `234` and a notice naming `5` as the next start index. -/
theorem read_documentation_pagination_witness :
    (read_documentation_impl "u" (.response 200 "0123456789" false) id 3 2
        = format_documentation_result "u" "0123456789" 2 3)
    ∧ (∃ t tail,
        format_documentation_result "u" "0123456789" 2 3
          = "AWS Documentation from " ++ "u" ++ ":\n\n" ++ t ++ tail
        ∧ t.data = (("0123456789" : String).data.drop 2).take 3
        ∧ (2 + 3 < ("0123456789" : String).length →
            tail = "\n\n<e>Content truncated. Call the read_documentation tool with start_index="
              ++ toString (2 + 3) ++ " to get more content.</e>")
        ∧ (("0123456789" : String).length ≤ 2 + 3 → tail = "")) :=
  ⟨(read_documentation_pagination "u" "0123456789" 2 3 200 id (by decide) (by decide)).1,
   (read_documentation_pagination "u" "0123456789" 2 3 200 id (by decide)
      (by decide)).2.2 (by decide)⟩

/-- C6: `read_documentation` raises a validation error (a thrown error,
distinct from its normal string return) on every url that does not start with
`http://` or `https://` followed by the fixed documentation host, or does not
end in `.html` — and the error is the same whatever the network would have
answered, i.e. no network call is consulted; on every url satisfying both
conditions no validation error is raised. -/
theorem read_documentation_url_validation (url : String) (m s : Nat) :
    ((matches_aws_docs_url url = false ∨ ends_with_html url = false) →
      ∃ e, ∀ (fetch : FetchOutcome) (extract : String → String),
        read_documentation url fetch extract m s = .error e)
    ∧ (matches_aws_docs_url url = true → ends_with_html url = true →
      ∀ (fetch : FetchOutcome) (extract : String → String),
        ∃ out, read_documentation url fetch extract m s = .ok out) := by
  constructor
  · intro h
    rcases h with h | h
    · exact ⟨"URL must be from the docs.aws.amazon.com domain",
        fun fetch extract => by simp [read_documentation, h]⟩
    · cases hm : matches_aws_docs_url url with
      | false => exact ⟨"URL must be from the docs.aws.amazon.com domain",
          fun fetch extract => by simp [read_documentation, hm]⟩
      | true => exact ⟨"URL must end with .html",
          fun fetch extract => by simp [read_documentation, hm, h]⟩
  · intro h1 h2 fetch extract
    exact ⟨read_documentation_impl url fetch extract m s,
      by simp [read_documentation, h1, h2]⟩

/-- Witness for C6: a url on a foreign host is rejected with the same error
for two different fetch outcomes, and a well-formed url is accepted. -/
theorem read_documentation_url_validation_witness :
    (∃ e, ∀ (fetch : FetchOutcome) (extract : String → String),
        read_documentation "https://example.com/a.html" fetch extract 5 0 = .error e)
    ∧ (∀ (fetch : FetchOutcome) (extract : String → String),
        ∃ out, read_documentation "https://docs.aws.amazon.com/a.html" fetch extract 5 0
          = .ok out) :=
  ⟨(read_documentation_url_validation "https://example.com/a.html" 5 0).1
      (Or.inl (by decide)),
   (read_documentation_url_validation "https://docs.aws.amazon.com/a.html" 5 0).2
      (by decide) (by decide)⟩

/-- C7: every remote-call failure (transport error, status ≥ 400, malformed
body) makes `search_documentation` return — not raise — a single-element list
whose title holds the error message, with empty url, empty query id and rank
1, and makes `recommend` return a single-element list with the error message
as title, empty url and no context. -/
theorem soft_fail_shapes (e : String) (limit : Nat) (cache : Cache)
    (body : Except String SearchData) (rbody : Except String RecData) :
    (search_documentation (.transportError e) limit cache
      = .ok ([{ rank_order := 1, url := "", title := "Error searching AWS docs: " ++ e,
                query_id := "", context := none }], cache))
    ∧ (∀ status, 400 ≤ status →
        search_documentation (.response status body) limit cache
          = .ok ([{ rank_order := 1, url := "",
                    title := "Error searching AWS docs - status code " ++ toString status,
                    query_id := "", context := none }], cache))
    ∧ (∀ status, status < 400 →
        search_documentation (.response status (.error e)) limit cache
          = .ok ([{ rank_order := 1, url := "",
                    title := "Error parsing search results: " ++ e,
                    query_id := "", context := none }], cache))
    ∧ (recommend (.transportError e)
      = [{ url := "", title := "Error getting recommendations: " ++ e, context := none }])
    ∧ (∀ status, 400 ≤ status →
        recommend (.response status rbody)
          = [{ url := "",
               title := "Error getting recommendations - status code " ++ toString status,
               context := none }])
    ∧ (∀ status, status < 400 →
        recommend (.response status (.error e))
          = [{ url := "", title := "Error parsing recommendations: " ++ e,
               context := none }]) := by
  refine ⟨rfl, fun status h => ?_, fun status h => ?_, rfl,
    fun status h => ?_, fun status h => ?_⟩
  · simp [search_documentation, h, errorSearchResult]
  · simp [search_documentation, Nat.not_le.mpr h, errorSearchResult]
  · simp [recommend, h, errorRecommendationResult]
  · simp [recommend, Nat.not_le.mpr h, errorRecommendationResult]

/-- Witness for C7: concrete status 500 and 200 instances of the soft-fail
shapes for both tools. -/
theorem soft_fail_shapes_witness :
    (search_documentation (.response 500 (.ok ⟨some "q", none⟩)) 10 []
      = .ok ([{ rank_order := 1, url := "",
                title := "Error searching AWS docs - status code " ++ toString 500,
                query_id := "", context := none }], []))
    ∧ (search_documentation (.response 200 (.error "boom")) 10 []
      = .ok ([{ rank_order := 1, url := "",
                title := "Error parsing search results: " ++ "boom",
                query_id := "", context := none }], []))
    ∧ (recommend (.response 500 (.ok ⟨[], [], [], []⟩))
      = [{ url := "",
           title := "Error getting recommendations - status code " ++ toString 500,
           context := none }]) :=
  ⟨(soft_fail_shapes "boom" 10 [] (.ok ⟨some "q", none⟩) (.ok ⟨[], [], [], []⟩)).2.1
      500 (by decide),
   (soft_fail_shapes "boom" 10 [] (.ok ⟨some "q", none⟩) (.ok ⟨[], [], [], []⟩)).2.2.1
      200 (by decide),
   (soft_fail_shapes "boom" 10 [] (.ok ⟨some "q", none⟩) (.ok ⟨[], [], [], []⟩)).2.2.2.2.1
      500 (by decide)⟩

/-- C8: every soft-failing `search_documentation` invocation (transport error,
status ≥ 400, malformed JSON) returns normally with the cache exactly as it
was: the error placeholder is never inserted as a batch, so a failed search
evicts nothing. -/
theorem search_failure_cache_unchanged (e : String) (limit status1 status2 : Nat)
    (cache : Cache) (body : Except String SearchData)
    (h1 : 400 ≤ status1) (h2 : status2 < 400) :
    (∃ r, search_documentation (.transportError e) limit cache = .ok (r, cache))
    ∧ (∃ r, search_documentation (.response status1 body) limit cache = .ok (r, cache))
    ∧ (∃ r, search_documentation (.response status2 (.error e)) limit cache
        = .ok (r, cache)) := by
  refine ⟨⟨[errorSearchResult ("Error searching AWS docs: " ++ e)], rfl⟩,
    ⟨[errorSearchResult ("Error searching AWS docs - status code " ++ toString status1)], ?_⟩,
    ⟨[errorSearchResult ("Error parsing search results: " ++ e)], ?_⟩⟩
  · simp [search_documentation, h1]
  · simp [search_documentation, Nat.not_le.mpr h2]

/-- Witness for C8: a full 3-batch cache survives a transport failure, an HTTP
500 and a parse failure untouched. -/
theorem search_failure_cache_unchanged_witness :
    (∃ r, search_documentation (.transportError "down") 10 [[], [], []] = .ok (r, [[], [], []]))
    ∧ (∃ r, search_documentation (.response 500 (.ok ⟨some "q", none⟩)) 10 [[], [], []]
        = .ok (r, [[], [], []]))
    ∧ (∃ r, search_documentation (.response 200 (.error "down")) 10 [[], [], []]
        = .ok (r, [[], [], []])) :=
  search_failure_cache_unchanged "down" 10 500 200 [[], [], []] (.ok ⟨some "q", none⟩)
    (by decide) (by decide)

/-- When no suggestion carries the text-excerpt shape the loop appends
nothing and succeeds with the empty list. -/
lemma build_all_none (qid : Option String) (l : List Suggestion) (i : Nat)
    (h : ∀ s ∈ l, s.textExcerptSuggestion = none) :
    build_results_from qid l i = .ok [] := by
  induction l generalizing i with
  | nil => rfl
  | cons s rest ih =>
    have hs : s.textExcerptSuggestion = none := h s (List.mem_cons_self s rest)
    simpa [build_results_from, hs] using
      ih (i + 1) (fun x hx => h x (List.mem_cons_of_mem s hx))

/-- C9: every `search_documentation` invocation whose remote call succeeds
(status < 400, parseable JSON) and whose result assembly does not raise
inserts exactly one batch — the result list itself — at the front of the
cache; a response without `suggestions`, or whose suggestions all lack the
text-excerpt shape, still inserts an empty batch, and inserting into a full
cache evicts the oldest batch. -/
theorem search_success_inserts_batch (status limit : Nat) (cache : Cache)
    (data : SearchData) (qid : Option String) (sugg : List Suggestion)
    (hstatus : status < 400) :
    (∀ res, search_results_of_data data limit = .ok res →
        search_documentation (.response status (.ok data)) limit cache
          = .ok (res, add_search_result_cache_item cache res))
    ∧ search_results_of_data ⟨qid, none⟩ limit = .ok []
    ∧ ((∀ s ∈ sugg, s.textExcerptSuggestion = none) →
        search_results_of_data ⟨qid, some sugg⟩ limit = .ok [])
    ∧ (cache.length = 3 →
        add_search_result_cache_item cache [] = [] :: cache.dropLast) := by
  have h400 : ¬ 400 ≤ status := Nat.not_le.mpr hstatus
  refine ⟨fun res hres => ?_, rfl, fun h => ?_, fun hc => ?_⟩
  · simp [search_documentation, h400, hres]
  · exact build_all_none qid (sugg.take limit) 0
      (fun s hs => h s (List.mem_of_mem_take hs))
  · have : cache.dropLast = cache.take 2 := by
      rw [List.dropLast_eq_take, hc]
    rw [add_search_result_cache_item, this, List.take_succ_cons]

/-- Witness for C9: a successful response with a single shapeless suggestion
and no query id still inserts an empty batch into a full cache, evicting the
oldest batch. -/
theorem search_success_inserts_batch_witness :
    search_documentation (.response 200 (.ok ⟨none, some [⟨none⟩]⟩)) 10
        [[{ rank_order := 1, url := "b", title := "t", query_id := "q2", context := none }],
         [{ rank_order := 1, url := "c", title := "t", query_id := "q3", context := none }],
         [{ rank_order := 1, url := "a", title := "t", query_id := "q1", context := none }]]
      = .ok ([],
        [] :: ([[{ rank_order := 1, url := "b", title := "t", query_id := "q2", context := none }],
                [{ rank_order := 1, url := "c", title := "t", query_id := "q3", context := none }],
                [{ rank_order := 1, url := "a", title := "t", query_id := "q1",
                   context := none }]] : Cache).dropLast) := by
  have h := search_success_inserts_batch 200 10
    [[{ rank_order := 1, url := "b", title := "t", query_id := "q2", context := none }],
     [{ rank_order := 1, url := "c", title := "t", query_id := "q3", context := none }],
     [{ rank_order := 1, url := "a", title := "t", query_id := "q1", context := none }]]
    ⟨none, some [⟨none⟩]⟩ none [⟨none⟩] (by decide)
  rw [h.1 [] (h.2.2.1 (by decide)), h.2.2.2 (by decide)]

/-- C10 counterexample: a valid-JSON response lacking `queryId` that does
contain a text-excerpt-shaped suggestion — but only beyond the caller's
`limit` of 1 — raises nothing: the call returns normally with an empty result
list (which is still cached), because the loop only visits the first `limit`
suggestions. -/
theorem search_missing_query_id_counterexample :
    search_documentation
        (.response 200 (.ok ⟨none, some [⟨none⟩, ⟨some ⟨none, none, none, none, none⟩⟩]⟩))
        1 []
      = .ok ([], [[]])
    ∧ ∀ msg, search_documentation
        (.response 200 (.ok ⟨none, some [⟨none⟩, ⟨some ⟨none, none, none, none, none⟩⟩]⟩))
        1 []
      ≠ .error msg := by
  refine ⟨rfl, fun msg h => ?_⟩
  rw [show search_documentation
      (.response 200 (.ok ⟨none, some [⟨none⟩, ⟨some ⟨none, none, none, none, none⟩⟩]⟩))
      1 [] = .ok ([], [[]]) from rfl] at h
  exact Except.noConfusion h

/-- If some suggestion among those visited carries the text-excerpt shape
while the query id is absent, the loop raises the pydantic validation error. -/
lemma build_none_qid_error (l : List Suggestion) (i : Nat)
    (h : ∃ s ∈ l, s.textExcerptSuggestion.isSome) :
    ∃ e, build_results_from none l i = .error e := by
  induction l generalizing i with
  | nil => simp at h
  | cons s rest ih =>
    cases hs : s.textExcerptSuggestion with
    | some ts =>
      exact ⟨"1 validation error for SearchResult: query_id: string required",
        by simp [build_results_from, hs]⟩
    | none =>
      obtain ⟨x, hx, hxs⟩ := h
      rcases List.mem_cons.mp hx with rfl | hx'
      · rw [hs] at hxs
        simp at hxs
      · obtain ⟨e, he⟩ := ih (i + 1) ⟨x, hx', hxs⟩
        exact ⟨e, by simp [build_results_from, hs, he]⟩

/-- C10 (amended): for every valid-JSON response lacking `queryId` whose first
`limit` suggestions include at least one text-excerpt-shaped suggestion,
`search_documentation` raises the model validation exception (the `SearchResult`
model requires a string `query_id`) instead of returning any list. -/
theorem search_missing_query_id_raises (sugg : List Suggestion)
    (limit status : Nat) (cache : Cache) (hstatus : status < 400)
    (hsome : ∃ s ∈ sugg.take limit, s.textExcerptSuggestion.isSome) :
    ∃ e, search_documentation (.response status (.ok ⟨none, some sugg⟩)) limit cache
      = .error e := by
  have h400 : ¬ 400 ≤ status := Nat.not_le.mpr hstatus
  obtain ⟨e, he⟩ := build_none_qid_error (sugg.take limit) 0 hsome
  exact ⟨e, by simp [search_documentation, h400, search_results_of_data, he]⟩

/-- Witness for C10 (amended): one shaped suggestion inside the limit and no
query id raises. -/
theorem search_missing_query_id_raises_witness :
    ∃ e, search_documentation
        (.response 200 (.ok ⟨none, some [⟨some ⟨none, none, none, none, none⟩⟩]⟩)) 10 []
      = .error e :=
  search_missing_query_id_raises [⟨some ⟨none, none, none, none, none⟩⟩] 10 200 []
    (by decide) ⟨⟨some ⟨none, none, none, none, none⟩⟩, by decide, by decide⟩

end AwsDocs
